import Mathlib

/-
  Verification of the gas-invoice repository core
  (customer/invoice repositories, invoice lifecycle service,
  error-classification and retry framework).

  The embedding is shallow: the TypeScript functions are translated into
  executable Lean definitions.  Strings are modelled as lists of characters
  (JavaScript string truthiness on these columns is emptiness testing),
  sheet contents as lists of typed rows in data order (the loops in the
  source start at index 1, skipping the column-header row, which is
  therefore omitted from the model), Date values as abstract Nat
  timestamps, and JavaScript numbers as exact rationals.  For the
  Math.floor(unitPrice * 1.1) computation the binary floating-point
  rounding of the source is not modelled; for the integer unit prices the
  service admits (0 < p <= 99,999,999) the double computation agrees with
  the exact floor, because 11*p/10 is either an exact integer or at
  distance >= 1/10 from one, while the accumulated rounding error is
  below 1e-7.
-/

namespace GasInvoice

/-- Strings are modelled as lists of characters. -/
abbrev Str := List Char

/-- Decimal digit character, as produced by JavaScript Number.prototype.toString. -/
def digitChar (n : Nat) : Char := Char.ofNat (48 + n)

/-- Decimal digits of a natural number, most significant first; the fuel
argument bounds the number of digits (10 suffices for every number this
system produces). -/
def natDigitsAux : Nat → Nat → List Char
  | 0, _ => []
  | fuel + 1, n =>
    if n < 10 then [digitChar n]
    else natDigitsAux fuel (n / 10) ++ [digitChar (n % 10)]

/-- JavaScript n.toString() for the naturals below 10^10. -/
def natToDigits (n : Nat) : Str := natDigitsAux 10 n

/-- JavaScript s.padStart(k, "0"). -/
def padZeros (k : Nat) (s : Str) : Str := List.replicate (k - s.length) '0' ++ s

/-- n.toString().padStart(3, "0"), as in invoice-number generation. -/
def pad3 (n : Nat) : Str := padZeros 3 (natToDigits n)

/-- n.toString().padStart(5, "0"), as in customer-id generation. -/
def pad5 (n : Nat) : Str := padZeros 5 (natToDigits n)

/-- parseInt on a digit string: decimal value, most significant first. -/
def digitsVal (s : Str) : Nat := s.foldl (fun a c => 10 * a + (c.toNat - 48)) 0

/-- Matcher for a capture group of exactly k decimal digits that must
cover the whole remaining input (the regexes in the source are anchored
on both sides). -/
def decodeFixed (k : Nat) (ds : Str) : Option Nat :=
  if ds.length = k ∧ ds.all Char.isDigit then some (digitsVal ds) else none

/-- JavaScript String.prototype.toLowerCase, for the ASCII range the
duplicate-name check exercises. -/
def toLowerStr (s : Str) : Str := s.map Char.toLower

/-- JavaScript hay.includes(needle): substring containment. -/
def includesSub : Str → Str → Bool
  | [], needle => needle.isEmpty
  | c :: t, needle => needle.isPrefixOf (c :: t) || includesSub t needle

/-- JavaScript String.prototype.trim (only emptiness of the result is
ever consumed by the validators). -/
def trimStr (s : Str) : Str :=
  ((s.dropWhile Char.isWhitespace).reverse.dropWhile Char.isWhitespace).reverse

/- ### Correctness of the decimal-digit utilities -/

theorem digitsVal_append (l : Str) (c : Char) :
    digitsVal (l ++ [c]) = 10 * digitsVal l + (c.toNat - 48) := by
  simp [digitsVal, List.foldl_append]

theorem digitChar_isDigit {n : Nat} (h : n < 10) : (digitChar n).isDigit = true := by
  interval_cases n <;> decide

theorem digitChar_toNat {n : Nat} (h : n < 10) : (digitChar n).toNat = 48 + n := by
  interval_cases n <;> decide

theorem natDigitsAux_all_digit :
    ∀ fuel n, (natDigitsAux fuel n).all Char.isDigit = true := by
  intro fuel
  induction fuel with
  | zero => intro n; rfl
  | succ f ih =>
    intro n
    by_cases h10 : n < 10
    · simp [natDigitsAux, h10, digitChar_isDigit h10]
    · have h : n % 10 < 10 := Nat.mod_lt _ (by omega)
      simp [natDigitsAux, h10, List.all_append, ih, digitChar_isDigit h]

theorem natDigitsAux_val :
    ∀ fuel n, n < 10 ^ fuel → digitsVal (natDigitsAux fuel n) = n := by
  intro fuel
  induction fuel with
  | zero =>
    intro n hn
    interval_cases n
    rfl
  | succ f ih =>
    intro n hn
    by_cases h10 : n < 10
    · have := digitChar_toNat h10
      simp [natDigitsAux, h10, digitsVal]
      omega
    · have hdiv : n / 10 < 10 ^ f := by
        rw [Nat.div_lt_iff_lt_mul (by omega)]
        calc n < 10 ^ (f + 1) := hn
          _ = 10 ^ f * 10 := by ring
      have hmod : n % 10 < 10 := Nat.mod_lt _ (by omega)
      rw [natDigitsAux]
      simp only [h10, if_false]
      rw [digitsVal_append, ih _ hdiv, digitChar_toNat hmod]
      omega

theorem natDigitsAux_ne_nil :
    ∀ fuel n, 0 < fuel → natDigitsAux fuel n ≠ [] := by
  intro fuel n hf
  match fuel, hf with
  | f + 1, _ =>
    by_cases h10 : n < 10 <;> simp [natDigitsAux, h10]

theorem natDigitsAux_length_le :
    ∀ fuel k n, 0 < k → k ≤ fuel → n < 10 ^ k →
      (natDigitsAux fuel n).length ≤ k := by
  intro fuel
  induction fuel with
  | zero => intro k n hk hkf _; omega
  | succ f ih =>
    intro k n hk hkf hn
    by_cases h10 : n < 10
    · simp [natDigitsAux, h10]; omega
    · have hk2 : 2 ≤ k := by
        by_contra h
        have hk1 : k = 1 := by omega
        subst hk1
        simp at hn
        omega
      have hdiv : n / 10 < 10 ^ (k - 1) := by
        rw [Nat.div_lt_iff_lt_mul (by omega)]
        calc n < 10 ^ k := hn
          _ = 10 ^ (k - 1) * 10 := by
            rw [← pow_succ]
            congr 1
            omega
      have := ih (k - 1) (n / 10) (by omega) (by omega) hdiv
      rw [natDigitsAux]
      simp only [h10, if_false]
      rw [List.length_append]
      simp
      omega

theorem digitsVal_replicate_zero_append (j : Nat) (ds : Str) :
    digitsVal (List.replicate j '0' ++ ds) = digitsVal ds := by
  have hz : ∀ m, List.foldl (fun a c => 10 * a + (c.toNat - 48)) 0
      (List.replicate m '0') = 0 := by
    intro m
    induction m with
    | zero => rfl
    | succ m ihm => simpa [List.replicate_succ] using ihm
  simp [digitsVal, List.foldl_append, hz j]

/-- Round-trip: zero-padding to k digits and re-matching \d{k} recovers
the original number, for numbers that fit in k digits. -/
theorem decodeFixed_padZeros {k n : Nat} (hk : 0 < k) (hk10 : k ≤ 10)
    (hn : n < 10 ^ k) :
    decodeFixed k (padZeros k (natToDigits n)) = some n := by
  have hlen : (natToDigits n).length ≤ k :=
    natDigitsAux_length_le 10 k n hk hk10 hn
  have hlen' : (padZeros k (natToDigits n)).length = k := by
    simp [padZeros]
    omega
  have hdig : (padZeros k (natToDigits n)).all Char.isDigit = true := by
    simp only [padZeros, List.all_append, Bool.and_eq_true]
    refine ⟨?_, natDigitsAux_all_digit 10 n⟩
    simp only [List.all_eq_true]
    intro c hc
    rw [List.eq_of_mem_replicate hc]
    decide
  have hval : digitsVal (padZeros k (natToDigits n)) = n := by
    have h10 : n < 10 ^ 10 := lt_of_lt_of_le hn (Nat.pow_le_pow_right (by omega) hk10)
    rw [padZeros, digitsVal_replicate_zero_append]
    exact natDigitsAux_val 10 n h10
  simp [decodeFixed, hlen', hdig, hval]

/- ### Error framework (src/src/utils/error-handler.ts)

The typed error hierarchy carries code, message, context, details and
isRetryable; the claims only discriminate on code and isRetryable, so
the diagnostic strings are not modelled.  Only the error codes the
verified operations can produce are included. -/

inductive ErrorCode where
  | systemError
  | timeoutError
  | dataInvalid
  | spreadsheetAccessError
  | spreadsheetPermissionError
  | driveAccessError
  | customerNotFound
  | customerDuplicate
  | invoiceNotFound
  | invoiceDuplicate
  | invoiceStatusError
deriving DecidableEq, Repr

structure AppError where
  code : ErrorCode
  isRetryable : Bool
deriving DecidableEq, Repr

/-- CustomerError extends AppError with isRetryable = false. -/
def customerError (code : ErrorCode) : AppError := ⟨code, false⟩

/-- InvoiceError extends AppError with isRetryable = false. -/
def invoiceError (code : ErrorCode) : AppError := ⟨code, false⟩

/-- ValidationError: code DATA_INVALID, never retryable (field/value
diagnostics are not modelled). -/
def validationError : AppError := ⟨.dataInvalid, false⟩

/-- A raw thrown value entering ErrorHandler.handle: either an already
typed AppError, a JavaScript Error with a message, or any other value. -/
inductive RawErr where
  | app : AppError → RawErr
  | jsError : Str → RawErr
  | other : RawErr
deriving DecidableEq, Repr

/-- ErrorHandler.convertToAppError: inspect the raw message for
substrings and map to the closest typed category. -/
def convertToAppError (msg : Str) : AppError :=
  if includesSub msg ("Spreadsheet".toList) then
    if includesSub msg ("permission".toList) then
      ⟨.spreadsheetPermissionError, false⟩
    else
      ⟨.spreadsheetAccessError, true⟩
  else if includesSub msg ("Drive".toList) then
    ⟨.driveAccessError, true⟩
  else if includesSub msg ("timeout".toList) then
    ⟨.timeoutError, true⟩
  else
    ⟨.systemError, false⟩

/-- ErrorHandler.handle: pass through typed errors, convert Error
instances by message, wrap anything else as SYSTEM_ERROR. -/
def handle : RawErr → AppError
  | .app a => a
  | .jsError msg => convertToAppError msg
  | .other => ⟨.systemError, false⟩

/-- ErrorHandler.RETRY_DELAY (milliseconds). -/
def RETRY_DELAY : Nat := 1000

/-- ErrorHandler.MAX_RETRIES, the default maxRetries of withRetry. -/
def MAX_RETRIES : Nat := 3

/-- One run of the retry loop of ErrorHandler.withRetry, starting at
attempt number `attempt` with `remaining` further attempts allowed
(remaining = maxRetries - attempt).  The operation is modelled as a
function from the attempt index to its outcome.  Returns the final
result, the number of invocations of the operation performed from this
point, and the list of backoff delays slept, in order. -/
def retryGo (op : Nat → Except RawErr α) (attempt : Nat) :
    Nat → Except AppError α × Nat × List Nat
  | 0 =>
    match op attempt with
    | .ok v => (.ok v, 1, [])
    | .error e => (.error (handle e), 1, [])
  | remaining + 1 =>
    match op attempt with
    | .ok v => (.ok v, 1, [])
    | .error e =>
      let a := handle e
      if a.isRetryable then
        let rest := retryGo op (attempt + 1) remaining
        (rest.1, rest.2.1 + 1, RETRY_DELAY * (attempt + 1) :: rest.2.2)
      else
        (.error a, 1, [])

/-- ErrorHandler.withRetry with the default maxRetries. -/
def withRetry (op : Nat → Except RawErr α) : Except AppError α × Nat × List Nat :=
  retryGo op 0 MAX_RETRIES

/- ### Data model (models/customer.model.ts, models/invoice.model.ts)

Rows are stored positionally; customerToRowData / invoiceToRowData /
itemToRowData and their inverses are column-order bijections between
these structures and the row arrays, so the model identifies a data row
with its decoded structure.  Optional fields are written as '' and read
back as undefined; they are modelled as Option values. -/

structure CustomerRow where
  customerId : Str
  companyName : Str
  contactPerson : Option Str
  postalCode : Option Str
  address : Option Str
  email : Option Str
  phoneNumber : Option Str
  registeredAt : Nat
  updatedAt : Nat
deriving DecidableEq, Repr

structure CreateCustomerRequest where
  companyName : Str
  contactPerson : Option Str
  postalCode : Option Str
  address : Option Str
  email : Option Str
  phoneNumber : Option Str
deriving DecidableEq, Repr

inductive InvoiceStatus where
  | draft
  | issued
  | cancelled
deriving DecidableEq, Repr

structure InvoiceItem where
  itemId : Str
  invoiceNumber : Str
  itemName : Str
  quantity : Nat
  unit : Str
  unitPrice : ℚ
  taxRate : ℚ
  amount : ℚ
deriving DecidableEq, Repr

/-- One header row of the invoice sheet (the items column is not stored
in the header row; items live in the detail sheet). -/
structure InvoiceRow where
  invoiceNumber : Str
  issueDate : Nat
  customerId : Str
  advertiser : Str
  subject : Str
  subtotal : ℚ
  taxAmount : ℚ
  totalAmount : ℚ
  notes : Option Str
  status : InvoiceStatus
  pdfUrl : Option Str
  createdAt : Nat
  updatedAt : Nat
deriving DecidableEq, Repr

/-- A fully reconstructed Invoice: header row plus its detail rows. -/
structure Invoice extends InvoiceRow where
  items : List InvoiceItem
deriving DecidableEq, Repr

structure CreateInvoiceRequest where
  customerId : Str
  advertiser : Str
  subject : Str
  unitPrice : ℚ
  notes : Option Str
deriving DecidableEq, Repr

/-- Partial of Invoice minus invoiceNumber / items / createdAt /
updatedAt; a none field is absent from the patch. -/
structure UpdateInvoiceRequest where
  issueDate : Option Nat := none
  customerId : Option Str := none
  advertiser : Option Str := none
  subject : Option Str := none
  subtotal : Option ℚ := none
  taxAmount : Option ℚ := none
  totalAmount : Option ℚ := none
  notes : Option Str := none
  status : Option InvoiceStatus := none
  pdfUrl : Option Str := none
deriving DecidableEq, Repr

/-- The empty patch. -/
def emptyUpdate : UpdateInvoiceRequest := {}

/-- The whole tabular store: customer sheet, invoice header sheet and
invoice detail sheet, each as its list of data rows in sheet order. -/
structure DB where
  customers : List CustomerRow
  invoices : List InvoiceRow
  details : List InvoiceItem
deriving DecidableEq, Repr

/-- Did an Except-valued call succeed? -/
def exceptOk : Except ε α → Bool
  | .ok _ => true
  | .error _ => false

/- ### Customer repository (src/src/repositories/customer.repository.ts)

Every public method runs inside withRetry; because the business errors
raised below are never retryable and the pure model has no transient
store failures, the wrapper performs exactly one invocation and is
dropped from these definitions (its behaviour is verified separately on
the retry framework itself). -/

/-- Regex match ^C(\d{5})$ with parseInt of the capture group. -/
def matchCustomerId (s : Str) : Option Nat :=
  match s with
  | 'C' :: ds => decodeFixed 5 ds
  | _ => none

/-- The running maximum of CustomerRepository.generateCustomerId's scan:
largest numeric suffix among ids matching ^C(\d{5})$, 0 when none match
(non-matching and empty cells contribute nothing, like the
truthiness/typeof guard in the source). -/
def maxCustomerNumber : List CustomerRow → Nat
  | [] => 0
  | r :: rest => max ((matchCustomerId r.customerId).getD 0) (maxCustomerNumber rest)

/-- CustomerRepository.generateCustomerId. -/
def generateCustomerId (rows : List CustomerRow) : Str :=
  'C' :: pad5 (maxCustomerNumber rows + 1)

/-- CustomerRepository.findByCompanyName: first row whose (truthy)
company name contains the query as a case-insensitive substring. -/
def findByCompanyName (companyName : Str) (rows : List CustomerRow) :
    Option CustomerRow :=
  rows.find? (fun r =>
    !r.companyName.isEmpty &&
      includesSub (toLowerStr r.companyName) (toLowerStr companyName))

/-- CustomerRepository.findById: first row with the given customerId. -/
def findCustomerById (customerId : Str) (rows : List CustomerRow) :
    Option CustomerRow :=
  rows.find? (fun r => r.customerId == customerId)

/-- CustomerRepository.create: generate the id, reject when
findByCompanyName finds a duplicate, append exactly one row at the end
of the sheet.  Returns the created customer and the new sheet. -/
def createCustomerRepo (now : Nat) (rows : List CustomerRow)
    (req : CreateCustomerRequest) :
    Except AppError (CustomerRow × List CustomerRow) :=
  let customerId := generateCustomerId rows
  match findByCompanyName req.companyName rows with
  | some _ => .error (customerError .customerDuplicate)
  | none =>
    let c : CustomerRow :=
      { customerId := customerId
        companyName := req.companyName
        contactPerson := req.contactPerson
        postalCode := req.postalCode
        address := req.address
        email := req.email
        phoneNumber := req.phoneNumber
        registeredAt := now
        updatedAt := now }
    .ok (c, rows ++ [c])

/-- A sequence of CustomerRepository.create calls, stopping at the first
failure; returns the generated ids in order and the final sheet. -/
def createSeq (now : Nat) (rows : List CustomerRow) :
    List CreateCustomerRequest → Except AppError (List Str × List CustomerRow)
  | [] => .ok ([], rows)
  | req :: reqs =>
    match createCustomerRepo now rows req with
    | .error e => .error e
    | .ok (c, rows') =>
      match createSeq now rows' reqs with
      | .error e => .error e
      | .ok (ids, final) => .ok (c.customerId :: ids, final)

/-- The ids produced by a successful createSeq run. -/
def createSeqIds (now : Nat) (rows : List CustomerRow)
    (reqs : List CreateCustomerRequest) : Option (List Str) :=
  (createSeq now rows reqs).toOption.map Prod.fst

/-- Repository exists (shared shape of InvoiceRepository.exists and
CustomerRepository.exists): the underlying lookup either throws or
returns an optional entity; a thrown error yields false, otherwise the
result is non-null-ness. -/
def repoExists (lookup : Except AppError (Option α)) : Bool :=
  match lookup with
  | .ok v => v.isSome
  | .error _ => false

/- ### Invoice repository (src/src/repositories/invoice.repository.ts) -/

/-- Regex match of new RegExp("^" + yearMonth + "-(\\d{3})$") with
parseInt of the capture group (yearMonth consists of digits, so the
interpolation is a literal match). -/
def matchInvoiceNumber (ym s : Str) : Option Nat :=
  if s.take ym.length = ym then
    match s.drop ym.length with
    | '-' :: ds => decodeFixed 3 ds
    | _ => none
  else none

/-- The running maximum of InvoiceRepository.generateInvoiceNumber's
scan over the first column of the header sheet. -/
def maxInvoiceNumber (ym : Str) : List Str → Nat
  | [] => 0
  | s :: rest => max ((matchInvoiceNumber ym s).getD 0) (maxInvoiceNumber ym rest)

/-- InvoiceRepository.generateInvoiceNumber, with the current YYYYMM
string as a parameter. -/
def generateInvoiceNumber (ym : Str) (numbers : List Str) : Str :=
  ym ++ '-' :: pad3 (maxInvoiceNumber ym numbers + 1)

/-- InvoiceRepository.generateItemId: invoiceNumber + "-001". -/
def generateItemId (invoiceNumber : Str) : Str :=
  invoiceNumber ++ ['-', '0', '0', '1']

/-- First header row with the given invoice number. -/
def findInvoiceRow (n : Str) (rows : List InvoiceRow) : Option InvoiceRow :=
  rows.find? (fun r => r.invoiceNumber == n)

/-- InvoiceRepository.getInvoiceItems: detail rows whose second column
equals the invoice number. -/
def getInvoiceItems (n : Str) (details : List InvoiceItem) : List InvoiceItem :=
  details.filter (fun it => it.invoiceNumber == n)

/-- InvoiceRepository.findByNumber: scan the header sheet, reattach the
detail rows. -/
def findInvoiceByNumber (n : Str) (db : DB) : Option Invoice :=
  (findInvoiceRow n db.invoices).map
    (fun r => { toInvoiceRow := r, items := getInvoiceItems n db.details })

/-- The fixed line-item name 制作費. -/
def itemNameConst : Str := ['制', '作', '費']

/-- The fixed line-item unit 式. -/
def unitConst : Str := ['式']

/-- The fixed tax rate 0.10. -/
def fixedTaxRate : ℚ := mkRat 1 10

/-- InvoiceRepository.create: generate the monthly number, defensively
re-check for a collision, derive the line-item amounts
(amount = Math.floor(unitPrice * 1.1), taxAmount by subtraction),
append the header row and then the detail row. -/
def createInvoiceRepo (ym : Str) (now : Nat) (req : CreateInvoiceRequest)
    (db : DB) : Except AppError (Invoice × DB) :=
  let invoiceNumber := generateInvoiceNumber ym (db.invoices.map (·.invoiceNumber))
  match findInvoiceByNumber invoiceNumber db with
  | some _ => .error (invoiceError .invoiceDuplicate)
  | none =>
    let itemId := generateItemId invoiceNumber
    let amount : ℚ := ((Rat.floor (req.unitPrice * (1 + fixedTaxRate)) : ℤ) : ℚ)
    let taxAmount := amount - req.unitPrice
    let item : InvoiceItem :=
      { itemId := itemId
        invoiceNumber := invoiceNumber
        itemName := itemNameConst
        quantity := 1
        unit := unitConst
        unitPrice := req.unitPrice
        taxRate := fixedTaxRate
        amount := amount }
    let row : InvoiceRow :=
      { invoiceNumber := invoiceNumber
        issueDate := now
        customerId := req.customerId
        advertiser := req.advertiser
        subject := req.subject
        subtotal := req.unitPrice
        taxAmount := taxAmount
        totalAmount := amount
        notes := req.notes
        status := .draft
        pdfUrl := none
        createdAt := now
        updatedAt := now }
    .ok ({ toInvoiceRow := row, items := [item] },
      { db with invoices := db.invoices ++ [row], details := db.details ++ [item] })

/-- The merge { ...existingInvoice, ...request, invoiceNumber,
updatedAt: new Date() } of InvoiceRepository.update: patch fields
overwrite, the number is never overwritten, createdAt is not part of
the patch type, updatedAt is stamped. -/
def mergeUpdate (now : Nat) (req : UpdateInvoiceRequest) (r : InvoiceRow) :
    InvoiceRow :=
  { invoiceNumber := r.invoiceNumber
    issueDate := req.issueDate.getD r.issueDate
    customerId := req.customerId.getD r.customerId
    advertiser := req.advertiser.getD r.advertiser
    subject := req.subject.getD r.subject
    subtotal := req.subtotal.getD r.subtotal
    taxAmount := req.taxAmount.getD r.taxAmount
    totalAmount := req.totalAmount.getD r.totalAmount
    notes := match req.notes with | some v => some v | none => r.notes
    status := req.status.getD r.status
    pdfUrl := match req.pdfUrl with | some v => some v | none => r.pdfUrl
    createdAt := r.createdAt
    updatedAt := now }

/-- The header-sheet scan of InvoiceRepository.update: rewrite the first
row whose number matches, returning the merged row and the new sheet;
none when no row matches. -/
def updateRowList (now : Nat) (n : Str) (req : UpdateInvoiceRequest) :
    List InvoiceRow → Option (InvoiceRow × List InvoiceRow)
  | [] => none
  | r :: rs =>
    if r.invoiceNumber == n then
      let m := mergeUpdate now req r
      some (m, m :: rs)
    else
      match updateRowList now n req rs with
      | some (m, rs') => some (m, r :: rs')
      | none => none

/-- InvoiceRepository.update: merge and rewrite in place, throwing
INVOICE_NOT_FOUND when the scan finds no row (the TypeScript signature
admits null but the body never returns it). -/
def updateInvoiceRepo (now : Nat) (n : Str) (req : UpdateInvoiceRequest)
    (db : DB) : Except AppError (Invoice × DB) :=
  match updateRowList now n req db.invoices with
  | some (m, invs) =>
    .ok ({ toInvoiceRow := m, items := getInvoiceItems n db.details },
      { db with invoices := invs })
  | none => .error (invoiceError .invoiceNotFound)

/-- Header-row deletion scan of InvoiceRepository.delete: remove the
first row whose number matches; none when no row matches. -/
def deleteHeaderRow (n : Str) : List InvoiceRow → Option (List InvoiceRow)
  | [] => none
  | r :: rs =>
    if r.invoiceNumber == n then some rs
    else (deleteHeaderRow n rs).map (fun rs' => r :: rs')

/-- InvoiceRepository.deleteInvoiceItems: the source walks the detail
sheet from the last row backward deleting every matching row, so that
earlier row indices are unaffected by the deletions; the net effect on
the sheet is removal of exactly the matching rows. -/
def deleteInvoiceItems (n : Str) (details : List InvoiceItem) :
    List InvoiceItem :=
  details.filter (fun it => !(it.invoiceNumber == n))

/-- InvoiceRepository.delete: delete the detail rows first, then scan
for the header row; when the header row is absent an INVOICE_NOT_FOUND
error is thrown, but the detail deletions have already happened.  The
returned DB is the store state after the call, error or not. -/
def deleteInvoiceRepo (n : Str) (db : DB) : Except AppError Bool × DB :=
  let db1 : DB := { db with details := deleteInvoiceItems n db.details }
  match deleteHeaderRow n db1.invoices with
  | some invs => (.ok true, { db1 with invoices := invs })
  | none => (.error (invoiceError .invoiceNotFound), db1)

/- ### Invoice service (InvoiceService)

Service methods catch every error, re-classify it (idempotent on typed
errors) and rethrow; state is threaded explicitly, and the DB component
of the result is the store state after the call, error or not. -/

/-- InvoiceService.validateCreateRequest.  The unitPrice guard is
!unitPrice || unitPrice <= 0 then unitPrice > 99999999; there is no
integrality check. -/
def validateCreateRequest (req : CreateInvoiceRequest) :
    Except AppError Unit :=
  if (trimStr req.customerId).isEmpty then .error validationError
  else if (trimStr req.advertiser).isEmpty then .error validationError
  else if req.advertiser.length > 200 then .error validationError
  else if (trimStr req.subject).isEmpty then .error validationError
  else if req.subject.length > 300 then .error validationError
  else if req.unitPrice = 0 ∨ req.unitPrice ≤ 0 then .error validationError
  else if req.unitPrice > 99999999 then .error validationError
  else
    match req.notes with
    | some nt => if ¬nt.isEmpty ∧ nt.length > 1000 then .error validationError else .ok ()
    | none => .ok ()

/-- InvoiceService.validateUpdateRequest. -/
def validateUpdateRequest (req : UpdateInvoiceRequest) :
    Except AppError Unit :=
  match req.advertiser with
  | some a =>
    if (trimStr a).isEmpty then .error validationError
    else if a.length > 200 then .error validationError
    else
      match req.subject with
      | some s =>
        if (trimStr s).isEmpty then .error validationError
        else if s.length > 300 then .error validationError
        else
          match req.notes with
          | some nt =>
            if ¬nt.isEmpty ∧ nt.length > 1000 then .error validationError else .ok ()
          | none => .ok ()
      | none =>
        match req.notes with
        | some nt =>
          if ¬nt.isEmpty ∧ nt.length > 1000 then .error validationError else .ok ()
        | none => .ok ()
  | none =>
    match req.subject with
    | some s =>
      if (trimStr s).isEmpty then .error validationError
      else if s.length > 300 then .error validationError
      else
        match req.notes with
        | some nt =>
          if ¬nt.isEmpty ∧ nt.length > 1000 then .error validationError else .ok ()
        | none => .ok ()
    | none =>
      match req.notes with
      | some nt =>
        if ¬nt.isEmpty ∧ nt.length > 1000 then .error validationError else .ok ()
      | none => .ok ()

/-- InvoiceService.validateStatusTransition's transition table. -/
def validTransitions : InvoiceStatus → List InvoiceStatus
  | .draft => [.issued, .cancelled]
  | .issued => [.cancelled]
  | .cancelled => []

/-- InvoiceService.validateStatusTransition. -/
def validateStatusTransition (current next : InvoiceStatus) :
    Except AppError Unit :=
  if (validTransitions current).contains next then .ok ()
  else .error (invoiceError .invoiceStatusError)

/-- InvoiceService.getInvoice: validate the number, look it up, throw
INVOICE_NOT_FOUND when absent. -/
def getInvoiceSvc (n : Str) (db : DB) : Except AppError Invoice :=
  if n.isEmpty then .error validationError
  else
    match findInvoiceByNumber n db with
    | none => .error (invoiceError .invoiceNotFound)
    | some inv => .ok inv

/-- InvoiceService.createInvoice: field validation, customer existence
check (CUSTOMER_NOT_FOUND before any write), then delegation to
InvoiceRepository.create. -/
def createInvoice (ym : Str) (now : Nat) (req : CreateInvoiceRequest)
    (db : DB) : Except AppError Invoice × DB :=
  match validateCreateRequest req with
  | .error e => (.error e, db)
  | .ok _ =>
    match findCustomerById req.customerId db.customers with
    | none => (.error (customerError .customerNotFound), db)
    | some _ =>
      match createInvoiceRepo ym now req db with
      | .error e => (.error e, db)
      | .ok (inv, db') => (.ok inv, db')

/-- InvoiceService.updateInvoice: number validation, field validation,
existence check, status-transition check when the patch changes the
status, customer existence check when the patch changes the (truthy)
customer, then InvoiceRepository.update. -/
def updateInvoice (now : Nat) (n : Str) (req : UpdateInvoiceRequest)
    (db : DB) : Except AppError Invoice × DB :=
  if n.isEmpty then (.error validationError, db)
  else
    match validateUpdateRequest req with
    | .error e => (.error e, db)
    | .ok _ =>
      match getInvoiceSvc n db with
      | .error e => (.error e, db)
      | .ok existing =>
        let statusCheck : Except AppError Unit :=
          match req.status with
          | some st =>
            if st ≠ existing.status then validateStatusTransition existing.status st
            else .ok ()
          | none => .ok ()
        match statusCheck with
        | .error e => (.error e, db)
        | .ok _ =>
          let custCheck : Except AppError Unit :=
            match req.customerId with
            | some cid =>
              if ¬cid.isEmpty ∧ cid ≠ existing.customerId then
                match findCustomerById cid db.customers with
                | none => .error (customerError .customerNotFound)
                | some _ => .ok ()
              else .ok ()
            | none => .ok ()
          match custCheck with
          | .error e => (.error e, db)
          | .ok _ =>
            match updateInvoiceRepo now n req db with
            | .error e => (.error e, db)
            | .ok (inv, db') => (.ok inv, db')

/-- InvoiceService.issueInvoice: only DRAFT invoices can be issued; on
success the status becomes ISSUED and the issueDate is refreshed. -/
def issueInvoice (now : Nat) (n : Str) (db : DB) :
    Except AppError Invoice × DB :=
  match getInvoiceSvc n db with
  | .error e => (.error e, db)
  | .ok inv =>
    if inv.status ≠ .draft then
      (.error (invoiceError .invoiceStatusError), db)
    else
      match updateInvoiceRepo now n
          { emptyUpdate with status := some .issued, issueDate := some now } db with
      | .error e => (.error e, db)
      | .ok (u, db') => (.ok u, db')

/-- InvoiceService.cancelInvoice: fails when already CANCELLED,
otherwise sets the status to CANCELLED. -/
def cancelInvoice (now : Nat) (n : Str) (db : DB) :
    Except AppError Invoice × DB :=
  match getInvoiceSvc n db with
  | .error e => (.error e, db)
  | .ok inv =>
    if inv.status = .cancelled then
      (.error (invoiceError .invoiceStatusError), db)
    else
      match updateInvoiceRepo now n
          { emptyUpdate with status := some .cancelled } db with
      | .error e => (.error e, db)
      | .ok (u, db') => (.ok u, db')

/- ### Decidable equality for Except results -/

instance {ε α : Type _} [DecidableEq ε] [DecidableEq α] :
    DecidableEq (Except ε α) := fun a b =>
  match a, b with
  | .ok x, .ok y =>
    if h : x = y then .isTrue (by rw [h])
    else .isFalse (fun c => by cases c; exact h rfl)
  | .error x, .error y =>
    if h : x = y then .isTrue (by rw [h])
    else .isFalse (fun c => by cases c; exact h rfl)
  | .ok _, .error _ => .isFalse (fun c => by cases c)
  | .error _, .ok _ => .isFalse (fun c => by cases c)

/- ### Claim theorems -/

theorem fixedTaxRate_eq : fixedTaxRate = 1 / 10 := by
  rw [fixedTaxRate, Rat.mkRat_eq_divInt, Rat.divInt_eq_div]
  norm_num

/-- Claim C1: every invoice returned by InvoiceRepository.create with a
positive unit price satisfies subtotal = unitPrice,
totalAmount = floor(unitPrice * 1.10), taxAmount = totalAmount -
unitPrice, and hence taxAmount + subtotal = totalAmount exactly. -/
theorem create_amount_invariant (ym : Str) (now : Nat)
    (req : CreateInvoiceRequest) (db : DB) (inv : Invoice) (db' : DB)
    (hpos : 0 < req.unitPrice)
    (h : createInvoiceRepo ym now req db = .ok (inv, db')) :
    inv.subtotal = req.unitPrice ∧
    inv.totalAmount = ((⌊req.unitPrice * (11 / 10 : ℚ)⌋ : ℤ) : ℚ) ∧
    inv.taxAmount = inv.totalAmount - req.unitPrice ∧
    inv.taxAmount + inv.subtotal = inv.totalAmount := by
  have hrate : (1 + fixedTaxRate : ℚ) = 11 / 10 := by
    rw [fixedTaxRate_eq]; norm_num
  have hfloor : ∀ q : ℚ, ((Rat.floor q : ℤ) : ℚ) = ((⌊q⌋ : ℤ) : ℚ) := by
    intro q
    rw [Rat.floor_def, Rat.floor_def']
  cases hfind : findInvoiceByNumber
      (generateInvoiceNumber ym (db.invoices.map (·.invoiceNumber))) db with
  | some _ =>
    simp only [createInvoiceRepo] at h
    rw [hfind] at h
    simp at h
  | none =>
    simp only [createInvoiceRepo] at h
    rw [hfind] at h
    simp only [Except.ok.injEq, Prod.mk.injEq] at h
    obtain ⟨hinv, _⟩ := h
    subst hinv
    refine ⟨rfl, ?_, rfl, ?_⟩
    · show ((Rat.floor (req.unitPrice * (1 + fixedTaxRate)) : ℤ) : ℚ) = _
      rw [hrate, hfloor]
    · show ((Rat.floor (req.unitPrice * (1 + fixedTaxRate)) : ℤ) : ℚ) - req.unitPrice
        + req.unitPrice = ((Rat.floor (req.unitPrice * (1 + fixedTaxRate)) : ℤ) : ℚ)
      ring

/- Concrete instances for the witnesses. -/

/-- The year-month string 202503. -/
def ymMarch : Str := ['2', '0', '2', '5', '0', '3']

def dbEmpty : DB := { customers := [], invoices := [], details := [] }

def req0 : CreateInvoiceRequest :=
  { customerId := ['C', '0', '0', '0', '0', '1']
    advertiser := ['X']
    subject := ['Y']
    unitPrice := mkRat 100000 1
    notes := none }

def invNum0 : Str := generateInvoiceNumber ymMarch []

def amount0 : ℚ := ((Rat.floor (mkRat 100000 1 * (1 + fixedTaxRate)) : ℤ) : ℚ)

def item0 : InvoiceItem :=
  { itemId := generateItemId invNum0
    invoiceNumber := invNum0
    itemName := itemNameConst
    quantity := 1
    unit := unitConst
    unitPrice := mkRat 100000 1
    taxRate := fixedTaxRate
    amount := amount0 }

def row0 : InvoiceRow :=
  { invoiceNumber := invNum0
    issueDate := 0
    customerId := req0.customerId
    advertiser := req0.advertiser
    subject := req0.subject
    subtotal := mkRat 100000 1
    taxAmount := amount0 - mkRat 100000 1
    totalAmount := amount0
    notes := none
    status := .draft
    pdfUrl := none
    createdAt := 0
    updatedAt := 0 }

def inv0 : Invoice := { toInvoiceRow := row0, items := [item0] }

def db1 : DB := { customers := [], invoices := [row0], details := [item0] }

/-- Witness for C1: a concrete creation (unit price 100000 yen, March
2025) satisfying the amount invariant. -/
theorem create_amount_invariant_witness :
    inv0.subtotal = req0.unitPrice ∧
    inv0.totalAmount = ((⌊req0.unitPrice * (11 / 10 : ℚ)⌋ : ℤ) : ℚ) ∧
    inv0.taxAmount = inv0.totalAmount - req0.unitPrice ∧
    inv0.taxAmount + inv0.subtotal = inv0.totalAmount :=
  create_amount_invariant ymMarch 0 req0 dbEmpty inv0 db1 (by decide) rfl

/-- Claim C10: the exists helpers never propagate an error: a thrown
lookup yields false, a successful lookup yields non-null-ness; in
particular this holds for the findByNumber / findById lookups. -/
theorem exists_never_throws :
    (∀ (α : Type) (e : AppError),
      repoExists (Except.error e : Except AppError (Option α)) = false) ∧
    (∀ (α : Type) (r : Option α),
      repoExists (Except.ok r : Except AppError (Option α)) = r.isSome) ∧
    (∀ (n : Str) (db : DB),
      repoExists (Except.ok (findInvoiceByNumber n db)
        : Except AppError (Option Invoice)) = (findInvoiceByNumber n db).isSome) ∧
    (∀ (cid : Str) (rows : List CustomerRow),
      repoExists (Except.ok (findCustomerById cid rows)
        : Except AppError (Option CustomerRow)) = (findCustomerById cid rows).isSome) :=
  ⟨fun _ _ => rfl, fun _ _ => rfl, fun _ _ => rfl, fun _ _ => rfl⟩

/-- Claim C3: the retry wrapper invokes the operation; a failure whose
classification is not retryable is rethrown at once with no further
invocation; with attempts remaining, a retryable failure sleeps
RETRY_DELAY * attemptNumber (linear backoff) and retries; once attempts
are exhausted the last classified error is rethrown; the default
attempt budget is MAX_RETRIES = 3. -/
theorem withRetry_spec {α : Type} (op : Nat → Except RawErr α)
    (attempt remaining : Nat) (e : RawErr) (h : op attempt = .error e) :
    ((handle e).isRetryable = false →
      retryGo op attempt remaining = (.error (handle e), 1, [])) ∧
    (retryGo op attempt 0 = (.error (handle e), 1, [])) ∧
    ((handle e).isRetryable = true →
      retryGo op attempt (remaining + 1) =
        ((retryGo op (attempt + 1) remaining).1,
         (retryGo op (attempt + 1) remaining).2.1 + 1,
         RETRY_DELAY * (attempt + 1) :: (retryGo op (attempt + 1) remaining).2.2)) ∧
    (withRetry op = retryGo op 0 3) := by
  refine ⟨?_, ?_, ?_, rfl⟩
  · intro hnr
    cases remaining with
    | zero => simp [retryGo, h]
    | succ r => simp [retryGo, h, hnr]
  · simp [retryGo, h]
  · intro hr
    simp [retryGo, h, hr]

/-- A raw spreadsheet timeout error, classified as retryable. -/
def rawTimeout : RawErr := .jsError ("timeout of operation".toList)

/-- Witness for C3 at a concrete always-failing operation: with a
retryable timeout failure at attempt 0 and two further attempts
remaining, the wrapper sleeps 1000ms and retries. -/
theorem withRetry_spec_witness :
    ((handle rawTimeout).isRetryable = false →
      retryGo (fun _ => (.error rawTimeout : Except RawErr Unit)) 0 1 =
        (.error (handle rawTimeout), 1, [])) ∧
    (retryGo (fun _ => (.error rawTimeout : Except RawErr Unit)) 0 0 =
      (.error (handle rawTimeout), 1, [])) ∧
    ((handle rawTimeout).isRetryable = true →
      retryGo (fun _ => (.error rawTimeout : Except RawErr Unit)) 0 (1 + 1) =
        ((retryGo (fun _ => (.error rawTimeout : Except RawErr Unit)) (0 + 1) 1).1,
         (retryGo (fun _ => (.error rawTimeout : Except RawErr Unit)) (0 + 1) 1).2.1 + 1,
         RETRY_DELAY * (0 + 1) ::
           (retryGo (fun _ => (.error rawTimeout : Except RawErr Unit)) (0 + 1) 1).2.2)) ∧
    (withRetry (fun _ => (.error rawTimeout : Except RawErr Unit)) =
      retryGo (fun _ => (.error rawTimeout : Except RawErr Unit)) 0 3) :=
  withRetry_spec (fun _ => (.error rawTimeout : Except RawErr Unit)) 0 1 rawTimeout rfl

/- ### C4: monthly scoping of invoice numbers -/

theorem take_append_self (l t : List α) : (l ++ t).take l.length = l := by
  induction l with
  | nil => rfl
  | cons a l ih => simp [ih]

theorem drop_append_self (l t : List α) : (l ++ t).drop l.length = t := by
  induction l with
  | nil => rfl
  | cons a l ih => simp [ih]

theorem maxInvoiceNumber_eq_zero {ym : Str} {numbers : List Str}
    (h : ∀ s ∈ numbers, matchInvoiceNumber ym s = none) :
    maxInvoiceNumber ym numbers = 0 := by
  induction numbers with
  | nil => rfl
  | cons s rest ih =>
    rw [maxInvoiceNumber, h s (by simp), ih (fun x hx => h x (by simp [hx]))]
    rfl

theorem maxInvoiceNumber_append (ym : Str) (l1 l2 : List Str) :
    maxInvoiceNumber ym (l1 ++ l2) =
      max (maxInvoiceNumber ym l1) (maxInvoiceNumber ym l2) := by
  induction l1 with
  | nil => simp [maxInvoiceNumber]
  | cons s rest ih =>
    show max ((matchInvoiceNumber ym s).getD 0) (maxInvoiceNumber ym (rest ++ l2)) =
      max (max ((matchInvoiceNumber ym s).getD 0) (maxInvoiceNumber ym rest))
        (maxInvoiceNumber ym l2)
    rw [ih, Nat.max_assoc]

theorem matchInvoiceNumber_generate (ym : Str) (numbers : List Str)
    (h : maxInvoiceNumber ym numbers + 1 ≤ 999) :
    matchInvoiceNumber ym (generateInvoiceNumber ym numbers) =
      some (maxInvoiceNumber ym numbers + 1) := by
  rw [generateInvoiceNumber, matchInvoiceNumber]
  rw [take_append_self, drop_append_self]
  simp only [if_pos rfl]
  exact decodeFixed_padZeros (by omega) (by omega) (by omega)

/-- Claim C4: invoice-number generation is scoped to the current
calendar month: when no row matches the month's pattern the generated
suffix is 001; numbers generated for different year-months never
collide; the generated number's suffix is the month's maximum existing
suffix plus one, and re-scanning after appending it yields that
incremented maximum (contiguity within the month). -/
theorem generateInvoiceNumber_monthly_scoping :
    (∀ (ym : Str) (numbers : List Str),
      (∀ s ∈ numbers, matchInvoiceNumber ym s = none) →
      generateInvoiceNumber ym numbers = ym ++ ['-', '0', '0', '1']) ∧
    (∀ (ym1 ym2 : Str) (l1 l2 : List Str),
      ym1.length = ym2.length → ym1 ≠ ym2 →
      generateInvoiceNumber ym1 l1 ≠ generateInvoiceNumber ym2 l2) ∧
    (∀ (ym : Str) (numbers : List Str),
      maxInvoiceNumber ym numbers + 1 ≤ 999 →
      matchInvoiceNumber ym (generateInvoiceNumber ym numbers) =
        some (maxInvoiceNumber ym numbers + 1)) ∧
    (∀ (ym : Str) (numbers : List Str),
      maxInvoiceNumber ym numbers + 1 ≤ 999 →
      maxInvoiceNumber ym (numbers ++ [generateInvoiceNumber ym numbers]) =
        maxInvoiceNumber ym numbers + 1) := by
  refine ⟨?_, ?_, matchInvoiceNumber_generate, ?_⟩
  · intro ym numbers h
    rw [generateInvoiceNumber, maxInvoiceNumber_eq_zero h]
    rfl
  · intro ym1 ym2 l1 l2 hlen hne heq
    rw [generateInvoiceNumber, generateInvoiceNumber] at heq
    exact hne (List.append_inj heq hlen).1
  · intro ym numbers h
    rw [maxInvoiceNumber_append]
    rw [maxInvoiceNumber, maxInvoiceNumber, matchInvoiceNumber_generate ym numbers h]
    simp

/-- The year-month string 202504. -/
def ymApril : Str := ['2', '0', '2', '5', '0', '4']

/-- Witness for C4 at concrete months: the first number of March 2025
is 202503-001; March and April numbers differ; generating over a sheet
already holding 202503-001 yields suffix 2 and the re-scan maximum 2. -/
theorem generateInvoiceNumber_monthly_scoping_witness :
    generateInvoiceNumber ymMarch [] = ymMarch ++ ['-', '0', '0', '1'] ∧
    generateInvoiceNumber ymMarch [] ≠ generateInvoiceNumber ymApril [] ∧
    matchInvoiceNumber ymMarch (generateInvoiceNumber ymMarch [invNum0]) =
      some (maxInvoiceNumber ymMarch [invNum0] + 1) ∧
    maxInvoiceNumber ymMarch ([invNum0] ++ [generateInvoiceNumber ymMarch [invNum0]]) =
      maxInvoiceNumber ymMarch [invNum0] + 1 :=
  ⟨generateInvoiceNumber_monthly_scoping.1 ymMarch [] (by simp),
   generateInvoiceNumber_monthly_scoping.2.1 ymMarch ymApril [] []
     (by decide) (by decide),
   generateInvoiceNumber_monthly_scoping.2.2.1 ymMarch [invNum0] (by decide),
   generateInvoiceNumber_monthly_scoping.2.2.2 ymMarch [invNum0] (by decide)⟩

/- ### C8 / C9: invoice deletion -/

theorem deleteHeaderRow_of_countP_one {n : Str} :
    ∀ l : List InvoiceRow,
      l.countP (fun r => r.invoiceNumber == n) = 1 →
      ∃ l', deleteHeaderRow n l = some l' ∧
        l'.countP (fun r => r.invoiceNumber == n) = 0 := by
  intro l
  induction l with
  | nil => intro h; simp at h
  | cons r rs ih =>
    intro h
    rw [List.countP_cons] at h
    split at h
    · rename_i hcond
      have hr : (r.invoiceNumber == n) = true := by simpa using hcond
      exact ⟨rs, by simp [deleteHeaderRow, hr], by omega⟩
    · rename_i hcond
      have hr : (r.invoiceNumber == n) = false := by simpa using hcond
      obtain ⟨l', hdel, hcnt⟩ := ih (by omega)
      refine ⟨r :: l', by simp [deleteHeaderRow, hr, hdel], ?_⟩
      rw [List.countP_cons, hcnt]
      simp [hr]

theorem deleteHeaderRow_of_countP_zero {n : Str} :
    ∀ l : List InvoiceRow,
      l.countP (fun r => r.invoiceNumber == n) = 0 →
      deleteHeaderRow n l = none := by
  intro l
  induction l with
  | nil => intro _; rfl
  | cons r rs ih =>
    intro h
    rw [List.countP_cons] at h
    split at h
    · omega
    · rename_i hcond
      have hr : (r.invoiceNumber == n) = false := by simpa using hcond
      simp [deleteHeaderRow, hr, ih (by omega)]

theorem length_filter_not_lt {α : Type _} {p : α → Bool} :
    ∀ l : List α, 0 < l.countP p →
      (l.filter (fun a => !(p a))).length < l.length := by
  intro l
  induction l with
  | nil => intro h; simp at h
  | cons a t ih =>
    intro h
    rw [List.countP_cons] at h
    rw [List.filter_cons]
    split at h
    · rename_i hcond
      have hp : p a = true := by simpa using hcond
      have hle := List.length_filter_le (fun a => !(p a)) t
      simp [hp]
      omega
    · rename_i hcond
      have hp : p a = false := by simpa using hcond
      have hlt := ih (by omega)
      simp [hp]
      omega

theorem deleteInvoiceItems_countP_zero (n : Str) (details : List InvoiceItem) :
    (deleteInvoiceItems n details).countP (fun it => it.invoiceNumber == n) = 0 := by
  rw [List.countP_eq_zero]
  intro it hit
  have := (List.mem_filter.mp hit).2
  simpa using this

/-- Claim C8: deleting an invoice whose number appears on exactly one
header row succeeds, and afterwards zero line-item rows referencing the
number and zero header rows with the number remain (the line items are
removed before the header row by construction of delete). -/
theorem delete_removes_all (n : Str) (db : DB)
    (h : db.invoices.countP (fun r => r.invoiceNumber == n) = 1) :
    exceptOk (deleteInvoiceRepo n db).1 = true ∧
    ((deleteInvoiceRepo n db).2).details.countP
      (fun it => it.invoiceNumber == n) = 0 ∧
    ((deleteInvoiceRepo n db).2).invoices.countP
      (fun r => r.invoiceNumber == n) = 0 := by
  obtain ⟨l', hdel, hcnt⟩ := deleteHeaderRow_of_countP_one db.invoices h
  have heq : deleteInvoiceRepo n db =
      (.ok true, ⟨db.customers, l', deleteInvoiceItems n db.details⟩) := by
    simp only [deleteInvoiceRepo, hdel]
  rw [heq]
  exact ⟨rfl, deleteInvoiceItems_countP_zero n db.details, hcnt⟩

def db2 : DB := { customers := [], invoices := [row0], details := [item0, item0] }

/-- Witness for C8: deleting a concrete invoice with two line-item rows
leaves no matching rows in either sheet. -/
theorem delete_removes_all_witness :
    exceptOk (deleteInvoiceRepo invNum0 db2).1 = true ∧
    ((deleteInvoiceRepo invNum0 db2).2).details.countP
      (fun it => it.invoiceNumber == invNum0) = 0 ∧
    ((deleteInvoiceRepo invNum0 db2).2).invoices.countP
      (fun r => r.invoiceNumber == invNum0) = 0 :=
  delete_removes_all invNum0 db2 (by decide)

/-- Claim C9: InvoiceRepository.delete is not atomic on error: when
line-item rows exist for the number but no header row does, the call
throws INVOICE_NOT_FOUND, yet the matching line-item rows have already
been deleted(the store shrinks despite the failure). -/
theorem delete_error_after_item_deletion (n : Str) (db : DB)
    (hitem : 0 < db.details.countP (fun it => it.invoiceNumber == n))
    (hhdr : db.invoices.countP (fun r => r.invoiceNumber == n) = 0) :
    deleteInvoiceRepo n db =
      (.error (invoiceError .invoiceNotFound),
       { db with details := deleteInvoiceItems n db.details }) ∧
    ((deleteInvoiceRepo n db).2).details.length < db.details.length ∧
    ((deleteInvoiceRepo n db).2).details.countP
      (fun it => it.invoiceNumber == n) = 0 := by
  have hdel := deleteHeaderRow_of_countP_zero db.invoices hhdr
  have heq : deleteInvoiceRepo n db =
      (.error (invoiceError .invoiceNotFound),
       { db with details := deleteInvoiceItems n db.details }) := by
    simp only [deleteInvoiceRepo, hdel]
  refine ⟨heq, ?_, ?_⟩
  · rw [heq]
    show (deleteInvoiceItems n db.details).length < db.details.length
    exact length_filter_not_lt db.details hitem
  · rw [heq]
    exact deleteInvoiceItems_countP_zero n db.details

def db3 : DB := { customers := [], invoices := [], details := [item0] }

/-- Witness for C9: with a concrete orphaned line-item row and no header
row, delete fails with INVOICE_NOT_FOUND but the line item is gone. -/
theorem delete_error_after_item_deletion_witness :
    deleteInvoiceRepo invNum0 db3 =
      (.error (invoiceError .invoiceNotFound),
       { db3 with details := deleteInvoiceItems invNum0 db3.details }) ∧
    ((deleteInvoiceRepo invNum0 db3).2).details.length < db3.details.length ∧
    ((deleteInvoiceRepo invNum0 db3).2).details.countP
      (fun it => it.invoiceNumber == invNum0) = 0 :=
  delete_error_after_item_deletion invNum0 db3 (by decide) (by decide)

/- ### C2: the status lifecycle once CANCELLED -/

theorem mergeUpdate_invoiceNumber (now : Nat) (req : UpdateInvoiceRequest)
    (r : InvoiceRow) : (mergeUpdate now req r).invoiceNumber = r.invoiceNumber := rfl

theorem updateRowList_of_found {now : Nat} {n : Str} {req : UpdateInvoiceRequest} :
    ∀ l (r : InvoiceRow), findInvoiceRow n l = some r →
      ∃ l', updateRowList now n req l = some (mergeUpdate now req r, l') ∧
        findInvoiceRow n l' = some (mergeUpdate now req r) := by
  intro l
  induction l with
  | nil => intro r h; simp [findInvoiceRow] at h
  | cons a rs ih =>
    intro r h
    rw [findInvoiceRow, List.find?_cons] at h
    cases ha : (a.invoiceNumber == n) with
    | true =>
      rw [ha] at h
      have har : a = r := by simpa using h
      subst har
      refine ⟨mergeUpdate now req a :: rs, ?_, ?_⟩
      · simp [updateRowList, ha]
      · rw [findInvoiceRow, List.find?_cons]
        rw [show ((mergeUpdate now req a).invoiceNumber == n) = true from by
          rw [mergeUpdate_invoiceNumber]; exact ha]
    | false =>
      rw [ha] at h
      obtain ⟨l', hupd, hfind⟩ := ih r h
      refine ⟨a :: l', ?_, ?_⟩
      · simp [updateRowList, ha, hupd]
      · rw [findInvoiceRow, List.find?_cons, ha]
        exact hfind

theorem updateInvoiceRepo_cases (now : Nat) (n : Str)
    (req : UpdateInvoiceRequest) (db : DB) :
    (∃ m l', updateRowList now n req db.invoices = some (m, l') ∧
      updateInvoiceRepo now n req db =
        .ok (⟨m, getInvoiceItems n db.details⟩, ⟨db.customers, l', db.details⟩)) ∨
    updateInvoiceRepo now n req db = .error (invoiceError .invoiceNotFound) := by
  unfold updateInvoiceRepo
  cases h : updateRowList now n req db.invoices with
  | some ml =>
    obtain ⟨m, l'⟩ := ml
    exact Or.inl ⟨m, l', rfl, rfl⟩
  | none => exact Or.inr rfl

theorem updateInvoice_snd (now : Nat) (n : Str) (req : UpdateInvoiceRequest)
    (db : DB) :
    (updateInvoice now n req db).2 = db ∨
    ∃ m l', updateRowList now n req db.invoices = some (m, l') ∧
      (updateInvoice now n req db).2 = ⟨db.customers, l', db.details⟩ := by
  by_cases hn : n.isEmpty
  · left; simp [updateInvoice, hn]
  · have hn' : n.isEmpty = false := by simpa using hn
    cases hv : validateUpdateRequest req with
    | error e => left; simp [updateInvoice, hn', hv]
    | ok u =>
      cases u
      cases hg : getInvoiceSvc n db with
      | error e => left; simp [updateInvoice, hn', hv, hg]
      | ok inv =>
        cases hsc : (match req.status with
            | some st =>
              if st ≠ inv.status then validateStatusTransition inv.status st
              else (.ok () : Except AppError Unit)
            | none => (.ok () : Except AppError Unit)) with
        | error e =>
          left
          simp only [updateInvoice, hn', Bool.false_eq_true, if_false, hv, hg, hsc]
        | ok u' =>
          cases u'
          cases hcc : (match req.customerId with
              | some cid =>
                if ¬cid.isEmpty ∧ cid ≠ inv.customerId then
                  match findCustomerById cid db.customers with
                  | none =>
                    (.error (customerError .customerNotFound) : Except AppError Unit)
                  | some _ => .ok ()
                else .ok ()
              | none => (.ok () : Except AppError Unit)) with
          | error e =>
            left
            simp only [updateInvoice, hn', Bool.false_eq_true, if_false, hv, hg,
              hsc, hcc]
          | ok u2 =>
            cases u2
            rcases updateInvoiceRepo_cases now n req db with ⟨m, l', hrow, hrepo⟩ | hrepo
            · right
              refine ⟨m, l', hrow, ?_⟩
              simp only [updateInvoice, hn', Bool.false_eq_true, if_false, hv, hg,
                hsc, hcc, hrepo]
            · left
              simp only [updateInvoice, hn', Bool.false_eq_true, if_false, hv, hg,
                hsc, hcc, hrepo]

theorem getInvoiceSvc_found {n : Str} {db : DB} {r : InvoiceRow}
    (hn : n.isEmpty = false) (hfind : findInvoiceRow n db.invoices = some r) :
    getInvoiceSvc n db = .ok ⟨r, getInvoiceItems n db.details⟩ := by
  rw [getInvoiceSvc]
  simp [hn, findInvoiceByNumber, hfind]

theorem update_cancelled_status_conflict (now : Nat) (n : Str) (db : DB)
    (r : InvoiceRow) (req : UpdateInvoiceRequest) (st : InvoiceStatus)
    (hn : n.isEmpty = false) (hfind : findInvoiceRow n db.invoices = some r)
    (hst : r.status = .cancelled) (hval : validateUpdateRequest req = .ok ())
    (hreqst : req.status = some st) (hstne : st ≠ .cancelled) :
    updateInvoice now n req db =
      (.error (invoiceError .invoiceStatusError), db) := by
  have hget := getInvoiceSvc_found hn hfind
  have hcond : st ≠ (⟨r, getInvoiceItems n db.details⟩ : Invoice).status := by
    show st ≠ r.status
    rw [hst]
    exact hstne
  have hcont : (validTransitions InvoiceStatus.cancelled).contains st = false := rfl
  simp only [updateInvoice, hn, Bool.false_eq_true, if_false, hval, hget, hreqst,
    if_pos hcond, validateStatusTransition]
  rw [show (⟨r, getInvoiceItems n db.details⟩ : Invoice).status =
    InvoiceStatus.cancelled from hst]
  rw [hcont]
  simp

/-- Claim C2 (amended): for a stored invoice whose status is CANCELLED,
issueInvoice and cancelInvoice fail with an INVOICE_STATUS_ERROR and
leave the store unchanged; updateInvoice fails the same way whenever its
patch requests a different status; after any updateInvoice call —
including a successful no-status-change update — the stored status is
still CANCELLED; and the transition table permits exactly DRAFT→ISSUED,
DRAFT→CANCELLED and ISSUED→CANCELLED. -/
theorem cancelled_is_terminal (now : Nat) (n : Str) (db : DB) (r : InvoiceRow)
    (hn : n.isEmpty = false)
    (hfind : findInvoiceRow n db.invoices = some r)
    (hst : r.status = .cancelled) :
    issueInvoice now n db = (.error (invoiceError .invoiceStatusError), db) ∧
    cancelInvoice now n db = (.error (invoiceError .invoiceStatusError), db) ∧
    (∀ (req : UpdateInvoiceRequest) (st : InvoiceStatus),
      validateUpdateRequest req = .ok () → req.status = some st →
      st ≠ .cancelled →
      updateInvoice now n req db =
        (.error (invoiceError .invoiceStatusError), db)) ∧
    (∀ req : UpdateInvoiceRequest,
      ∃ r', findInvoiceRow n ((updateInvoice now n req db).2).invoices = some r' ∧
        r'.status = .cancelled) ∧
    (∀ a b : InvoiceStatus, validateStatusTransition a b = .ok () ↔
      (a = .draft ∧ b = .issued) ∨ (a = .draft ∧ b = .cancelled) ∨
      (a = .issued ∧ b = .cancelled)) := by
  have hget := getInvoiceSvc_found hn hfind
  refine ⟨?_, ?_, ?_, ?_, ?_⟩
  · rw [issueInvoice, hget]
    simp [hst]
  · rw [cancelInvoice, hget]
    simp [hst]
  · intro req st hval hreqst hstne
    exact update_cancelled_status_conflict now n db r req st hn hfind hst hval
      hreqst hstne
  · intro req
    have key : req.status.getD r.status = .cancelled →
        ∃ r', findInvoiceRow n ((updateInvoice now n req db).2).invoices = some r' ∧
          r'.status = .cancelled := by
      intro hgd
      rcases updateInvoice_snd now n req db with hsnd | ⟨m, l', hrow, hsnd⟩
      · exact ⟨r, by rw [hsnd]; exact hfind, hst⟩
      · obtain ⟨l'', hrow', hfind'⟩ :=
          @updateRowList_of_found now n req db.invoices r hfind
        rw [hrow] at hrow'
        simp only [Option.some.injEq, Prod.mk.injEq] at hrow'
        obtain ⟨hm, hl⟩ := hrow'
        refine ⟨mergeUpdate now req r, ?_, ?_⟩
        · rw [hsnd]
          show findInvoiceRow n l' = some (mergeUpdate now req r)
          rw [hl]
          exact hfind'
        · show req.status.getD r.status = .cancelled
          exact hgd
    cases hrs : req.status with
    | none =>
      refine key ?_
      rw [hrs, Option.getD_none, hst]
    | some st =>
      by_cases hstc : st = .cancelled
      · refine key ?_
        rw [hrs, hstc]
        rfl
      · cases hv : validateUpdateRequest req with
        | error e =>
          have hsnd : (updateInvoice now n req db).2 = db := by
            simp [updateInvoice, hn, hv]
          exact ⟨r, by rw [hsnd]; exact hfind, hst⟩
        | ok u =>
          cases u
          have herr := update_cancelled_status_conflict now n db r req st hn
            hfind hst hv hrs hstc
          rw [herr]
          exact ⟨r, hfind, hst⟩
  · intro a b
    cases a <;> cases b <;> decide

/-- A concrete CANCELLED invoice row. -/
def rowC : InvoiceRow :=
  { invoiceNumber := invNum0
    issueDate := 0
    customerId := ['C', '0', '0', '0', '0', '1']
    advertiser := ['A']
    subject := ['S']
    subtotal := mkRat 100000 1
    taxAmount := mkRat 10000 1
    totalAmount := mkRat 110000 1
    notes := none
    status := .cancelled
    pdfUrl := none
    createdAt := 0
    updatedAt := 0 }

def db4 : DB := { customers := [], invoices := [rowC], details := [] }

/-- An update patch that touches only the advertiser. -/
def reqAdv : UpdateInvoiceRequest := { emptyUpdate with advertiser := some ['X'] }

/-- Counterexample to C2 as stated: an updateInvoice call on a stored
CANCELLED invoice whose patch does not request a status change succeeds
— it does not fail with a status-conflict error. -/
theorem cancelled_update_succeeds :
    rowC.status = .cancelled ∧
    exceptOk (updateInvoice 7 invNum0 reqAdv db4).1 = true :=
  ⟨rfl, by decide⟩

/-- Witness for the amended C2 at a concrete CANCELLED invoice: issue,
cancel and a status-changing update all fail with INVOICE_STATUS_ERROR
and leave the store unchanged, and DRAFT→ISSUED is a permitted
transition. -/
theorem cancelled_is_terminal_witness :
    issueInvoice 7 invNum0 db4 =
      (.error (invoiceError .invoiceStatusError), db4) ∧
    cancelInvoice 7 invNum0 db4 =
      (.error (invoiceError .invoiceStatusError), db4) ∧
    updateInvoice 7 invNum0 { emptyUpdate with status := some .issued } db4 =
      (.error (invoiceError .invoiceStatusError), db4) ∧
    validateStatusTransition .draft .issued = .ok () :=
  have h := cancelled_is_terminal 7 invNum0 db4 rowC (by decide) (by decide) rfl
  ⟨h.1, h.2.1,
   h.2.2.1 { emptyUpdate with status := some .issued } .issued (by decide) rfl
     (by decide),
   (h.2.2.2.2 .draft .issued).mpr (Or.inl ⟨rfl, rfl⟩)⟩

/- ### C6: the duplicate-name check -/

/-- Claim C6 (amended): customer creation fails with a duplicate error
if and only if some existing row's non-empty company name contains the
new company name as a case-insensitive substring.  (The check is
one-directional: a new name that merely contains an existing name is not
rejected.) -/
theorem duplicate_check_one_directional (now : Nat) (rows : List CustomerRow)
    (req : CreateCustomerRequest) :
    createCustomerRepo now rows req = .error (customerError .customerDuplicate) ↔
    ∃ r ∈ rows, r.companyName ≠ [] ∧
      includesSub (toLowerStr r.companyName) (toLowerStr req.companyName) = true := by
  unfold createCustomerRepo
  cases hfind : findByCompanyName req.companyName rows with
  | some c =>
    simp only [iff_true_intro rfl, true_iff]
    have hmem : c ∈ rows := List.mem_of_find?_eq_some hfind
    have hpred := List.find?_some hfind
    rw [Bool.and_eq_true] at hpred
    refine ⟨c, hmem, ?_, hpred.2⟩
    have := hpred.1
    simp only [Bool.not_eq_true'] at this
    simpa [List.isEmpty_iff] using this
  | none =>
    rw [findByCompanyName, List.find?_eq_none] at hfind
    constructor
    · intro h
      cases h
    · intro ⟨r, hmem, hne, hinc⟩
      exfalso
      apply hfind r hmem
      rw [Bool.and_eq_true]
      refine ⟨?_, hinc⟩
      cases hEmpty : r.companyName.isEmpty with
      | false => rfl
      | true =>
        exfalso
        apply hne
        simpa using hEmpty

def rowAcme : CustomerRow :=
  { customerId := ['C', '0', '0', '0', '0', '1']
    companyName := ['A', 'c', 'm', 'e']
    contactPerson := none
    postalCode := none
    address := none
    email := none
    phoneNumber := none
    registeredAt := 0
    updatedAt := 0 }

def reqAcmeInc : CreateCustomerRequest :=
  { companyName := ['A', 'c', 'm', 'e', ' ', 'I', 'n', 'c']
    contactPerson := none
    postalCode := none
    address := none
    email := none
    phoneNumber := none }

/-- Counterexample to C6 as stated: the new name "Acme Inc" contains the
existing name "Acme" (the claim's vice-versa direction), yet creation
succeeds instead of failing with a duplicate error. -/
theorem substring_duplicate_not_symmetric :
    includesSub (toLowerStr reqAcmeInc.companyName)
      (toLowerStr rowAcme.companyName) = true ∧
    exceptOk (createCustomerRepo 0 [rowAcme] reqAcmeInc) = true := by
  decide

/- ### C7: createInvoice validation -/

theorem validateCreateRequest_ok_or_validation (req : CreateInvoiceRequest) :
    validateCreateRequest req = .ok () ∨
    validateCreateRequest req = .error validationError := by
  unfold validateCreateRequest
  repeat' split
  all_goals simp

theorem validateCreateRequest_ok_conditions (req : CreateInvoiceRequest)
    (h : validateCreateRequest req = .ok ()) :
    (trimStr req.customerId).isEmpty = false ∧
    (trimStr req.advertiser).isEmpty = false ∧
    req.advertiser.length ≤ 200 ∧
    (trimStr req.subject).isEmpty = false ∧
    req.subject.length ≤ 300 ∧
    ¬req.unitPrice ≤ 0 ∧
    ¬req.unitPrice > 99999999 ∧
    (∀ nt, req.notes = some nt → nt ≠ [] → nt.length ≤ 1000) := by
  unfold validateCreateRequest at h
  split at h
  · cases h
  split at h
  · cases h
  split at h
  · cases h
  split at h
  · cases h
  split at h
  · cases h
  split at h
  · cases h
  split at h
  · cases h
  rename_i h1 h2 h3 h4 h5 h6 h7
  have hbase : (trimStr req.customerId).isEmpty = false ∧
      (trimStr req.advertiser).isEmpty = false ∧
      req.advertiser.length ≤ 200 ∧
      (trimStr req.subject).isEmpty = false ∧
      req.subject.length ≤ 300 ∧
      ¬req.unitPrice ≤ 0 ∧
      ¬req.unitPrice > 99999999 := by
    refine ⟨?_, ?_, by omega, ?_, by omega, ?_, h7⟩
    · simpa using h1
    · simpa using h2
    · simpa using h4
    · intro hle
      exact h6 (Or.inr hle)
  refine ⟨hbase.1, hbase.2.1, hbase.2.2.1, hbase.2.2.2.1, hbase.2.2.2.2.1,
    hbase.2.2.2.2.2.1, hbase.2.2.2.2.2.2, ?_⟩
  intro nt hnt hne
  rw [hnt] at h
  split at h
  · rename_i nt' hcond
    have hnn : nt = nt' := by injection hcond
    subst hnn
    split at h
    · cases h
    · rename_i hcond2
      rw [not_and] at hcond2
      by_contra hlen
      have hne' : ¬nt.isEmpty = true := by simpa using hne
      exact hcond2 hne' (by omega)
  · rename_i hcond
    cases hcond

theorem validateCreateRequest_fails (req : CreateInvoiceRequest)
    (h : (trimStr req.customerId).isEmpty = true ∨
      (trimStr req.advertiser).isEmpty = true ∨
      req.advertiser.length > 200 ∨
      (trimStr req.subject).isEmpty = true ∨
      req.subject.length > 300 ∨
      req.unitPrice ≤ 0 ∨
      req.unitPrice > 99999999 ∨
      (∃ nt, req.notes = some nt ∧ nt ≠ [] ∧ nt.length > 1000)) :
    validateCreateRequest req = .error validationError := by
  rcases validateCreateRequest_ok_or_validation req with hok | herr
  · exfalso
    obtain ⟨c1, c2, c3, c4, c5, c6, c7, c8⟩ := validateCreateRequest_ok_conditions req hok
    rcases h with h | h | h | h | h | h | h | ⟨nt, hnt, hne, hlen⟩
    · rw [c1] at h; cases h
    · rw [c2] at h; cases h
    · omega
    · rw [c4] at h; cases h
    · omega
    · exact c6 h
    · exact c7 h
    · exact absurd hlen (by have := c8 nt hnt hne; omega)
  · exact herr

/-- Claim C7 (amended): createInvoice fails with a validation error and
writes nothing whenever customerId trims to empty, advertiser is
missing/blank or longer than 200, subject is missing/blank or longer
than 300, notes is present, non-empty and longer than 1000, or
unitPrice is ≤ 0 or > 99,999,999 (integrality of unitPrice is NOT
checked); when validation passes and the referenced customer does not
exist it fails with CUSTOMER_NOT_FOUND before delegating to the
repository; and in every failing case the store is unchanged. -/
theorem createInvoice_validation (ym : Str) (now : Nat)
    (req : CreateInvoiceRequest) (db : DB) :
    (((trimStr req.customerId).isEmpty = true ∨
      (trimStr req.advertiser).isEmpty = true ∨
      req.advertiser.length > 200 ∨
      (trimStr req.subject).isEmpty = true ∨
      req.subject.length > 300 ∨
      req.unitPrice ≤ 0 ∨
      req.unitPrice > 99999999 ∨
      (∃ nt, req.notes = some nt ∧ nt ≠ [] ∧ nt.length > 1000)) →
      createInvoice ym now req db = (.error validationError, db)) ∧
    (validateCreateRequest req = .ok () →
      findCustomerById req.customerId db.customers = none →
      createInvoice ym now req db =
        (.error (customerError .customerNotFound), db)) ∧
    (∀ e : AppError, (createInvoice ym now req db).1 = .error e →
      (createInvoice ym now req db).2 = db) := by
  refine ⟨?_, ?_, ?_⟩
  · intro h
    have hv := validateCreateRequest_fails req h
    simp [createInvoice, hv]
  · intro hok hcust
    simp [createInvoice, hok, hcust]
  · intro e
    cases hv : validateCreateRequest req with
    | error e' => simp [createInvoice, hv]
    | ok u =>
      cases u
      cases hcust : findCustomerById req.customerId db.customers with
      | none => simp [createInvoice, hv, hcust]
      | some c =>
        cases hrepo : createInvoiceRepo ym now req db with
        | error e' => simp [createInvoice, hv, hcust, hrepo]
        | ok p =>
          intro habs
          exfalso
          rw [show (createInvoice ym now req db).1 = .ok p.1 from by
            simp [createInvoice, hv, hcust, hrepo]] at habs
          cases habs

def custRow1 : CustomerRow :=
  { customerId := ['C', '0', '0', '0', '0', '1']
    companyName := ['A', 'c', 'm', 'e']
    contactPerson := none
    postalCode := none
    address := none
    email := none
    phoneNumber := none
    registeredAt := 0
    updatedAt := 0 }

def db5 : DB := { customers := [custRow1], invoices := [], details := [] }

/-- A creation request with the non-integer unit price 100.5. -/
def reqFrac : CreateInvoiceRequest :=
  { customerId := ['C', '0', '0', '0', '0', '1']
    advertiser := ['X']
    subject := ['Y']
    unitPrice := mkRat 201 2
    notes := none }

/-- Counterexample to C7 as stated: unitPrice = 100.5 is not an integer,
yet createInvoice does not fail with a validation error — it succeeds
and a header row is written. -/
theorem nonint_price_not_rejected :
    (mkRat 201 2).isInt = false ∧
    0 < reqFrac.unitPrice ∧
    reqFrac.unitPrice ≤ 99999999 ∧
    exceptOk (createInvoice ymMarch 0 reqFrac db5).1 = true ∧
    ((createInvoice ymMarch 0 reqFrac db5).2).invoices.length = 1 ∧
    db5.invoices.length = 0 := by
  decide

/-- A creation request whose customerId is empty. -/
def reqNoCust : CreateInvoiceRequest :=
  { customerId := []
    advertiser := ['X']
    subject := ['Y']
    unitPrice := mkRat 100000 1
    notes := none }

/-- Witness for the amended C7 at concrete requests: an empty customerId
is rejected as a validation error leaving the store unchanged; a valid
request naming an absent customer fails with CUSTOMER_NOT_FOUND; and
that failing call leaves the store unchanged. -/
theorem createInvoice_validation_witness :
    createInvoice ymMarch 0 reqNoCust db5 = (.error validationError, db5) ∧
    createInvoice ymMarch 0 req0 dbEmpty =
      (.error (customerError .customerNotFound), dbEmpty) ∧
    (createInvoice ymMarch 0 reqNoCust db5).2 = db5 :=
  have h1 := (createInvoice_validation ymMarch 0 reqNoCust db5).1
    (Or.inl (by decide))
  ⟨h1,
   (createInvoice_validation ymMarch 0 req0 dbEmpty).2.1 (by decide) (by decide),
   (createInvoice_validation ymMarch 0 reqNoCust db5).2.2 validationError
     (by rw [h1])⟩

/- ### C5: customer-id generation across creation sequences -/

theorem matchCustomerId_generate {k : Nat} (hk : k < 100000) :
    matchCustomerId ('C' :: pad5 k) = some k := by
  rw [matchCustomerId]
  exact decodeFixed_padZeros (by omega) (by omega) (by omega)

theorem maxCustomerNumber_append (l1 l2 : List CustomerRow) :
    maxCustomerNumber (l1 ++ l2) =
      max (maxCustomerNumber l1) (maxCustomerNumber l2) := by
  induction l1 with
  | nil => simp [maxCustomerNumber]
  | cons r rest ih =>
    show max ((matchCustomerId r.customerId).getD 0) (maxCustomerNumber (rest ++ l2)) =
      max (max ((matchCustomerId r.customerId).getD 0) (maxCustomerNumber rest))
        (maxCustomerNumber l2)
    rw [ih, Nat.max_assoc]

theorem createCustomerRepo_ok {now : Nat} {rows : List CustomerRow}
    {req : CreateCustomerRequest} {c : CustomerRow} {rows' : List CustomerRow}
    (h : createCustomerRepo now rows req = .ok (c, rows')) :
    c.customerId = generateCustomerId rows ∧ rows' = rows ++ [c] := by
  unfold createCustomerRepo at h
  split at h
  · cases h
  · simp only [Except.ok.injEq, Prod.mk.injEq] at h
    obtain ⟨hc, hrows⟩ := h
    subst hc
    subst hrows
    exact ⟨rfl, rfl⟩

theorem createSeq_ids (now : Nat) :
    ∀ (reqs : List CreateCustomerRequest) (rows : List CustomerRow)
      (ids : List Str) (final : List CustomerRow),
      createSeq now rows reqs = .ok (ids, final) →
      maxCustomerNumber rows + reqs.length ≤ 99999 →
      ids = (List.range' (maxCustomerNumber rows + 1) reqs.length).map
        (fun k => 'C' :: pad5 k) := by
  intro reqs
  induction reqs with
  | nil =>
    intro rows ids final h _
    unfold createSeq at h
    simp only [Except.ok.injEq, Prod.mk.injEq] at h
    rw [← h.1]
    rfl
  | cons req reqs ih =>
    intro rows ids final h hbound
    unfold createSeq at h
    cases hc : createCustomerRepo now rows req with
    | error e => rw [hc] at h; cases h
    | ok p =>
      rw [hc] at h
      obtain ⟨c, rows'⟩ := p
      simp only [] at h
      cases hs : createSeq now rows' reqs with
      | error e => rw [hs] at h; cases h
      | ok q =>
        rw [hs] at h
        obtain ⟨ids', final'⟩ := q
        simp only [Except.ok.injEq, Prod.mk.injEq] at h
        obtain ⟨hids, _⟩ := h
        obtain ⟨hcid, hrows'⟩ := createCustomerRepo_ok hc
        have hblt : maxCustomerNumber rows + 1 < 100000 := by
          simp only [List.length_cons] at hbound
          omega
        have hmax : maxCustomerNumber rows' = maxCustomerNumber rows + 1 := by
          rw [hrows', maxCustomerNumber_append]
          show max (maxCustomerNumber rows)
            (max ((matchCustomerId c.customerId).getD 0) (maxCustomerNumber [])) = _
          rw [hcid, generateCustomerId, @matchCustomerId_generate
            (maxCustomerNumber rows + 1) hblt]
          show max (maxCustomerNumber rows) (max (maxCustomerNumber rows + 1) 0) = _
          omega
        have hih : ids' = (List.range' (maxCustomerNumber rows' + 1) reqs.length).map
            (fun k => 'C' :: pad5 k) := by
          refine ih rows' ids' final' hs ?_
          rw [hmax]
          simp only [List.length_cons] at hbound
          omega
        rw [← hids, hih, hmax]
        simp only [List.length_cons]
        rw [List.range'_succ]
        simp only [List.map_cons]
        rw [hcid]
        rfl

theorem pairwise_lt_range1 : ∀ (n s : Nat), (List.range' s n).Pairwise (· < ·) := by
  intro n
  induction n with
  | zero => intro s; simp
  | succ m ih =>
    intro s
    rw [List.range'_succ, List.pairwise_cons]
    refine ⟨?_, ih (s + 1)⟩
    intro b hb
    rw [List.mem_range'] at hb
    obtain ⟨i, hi, hb⟩ := hb
    omega

/-- Claim C5 (amended): for every sequence of successful customer
creations whose generated numbers stay within the 5-digit id format
(max existing suffix + number of creations ≤ 99999), the generated ids
are strictly increasing in their numeric suffix and pairwise distinct;
on an empty sheet two creations yield C00001 then C00002. -/
theorem customer_ids_strictly_increasing (now : Nat)
    (reqs : List CreateCustomerRequest) (rows : List CustomerRow)
    (ids : List Str) (final : List CustomerRow)
    (h : createSeq now rows reqs = .ok (ids, final))
    (hbound : maxCustomerNumber rows + reqs.length ≤ 99999) :
    ids.Pairwise
      (fun a b => (matchCustomerId a).getD 0 < (matchCustomerId b).getD 0) ∧
    ids.Pairwise (fun a b => a ≠ b) ∧
    (rows = [] → reqs.length = 2 →
      ids = [['C', '0', '0', '0', '0', '1'], ['C', '0', '0', '0', '0', '2']]) := by
  have hids := createSeq_ids now reqs rows ids final h hbound
  have hlt : ids.Pairwise
      (fun a b => (matchCustomerId a).getD 0 < (matchCustomerId b).getD 0) := by
    rw [hids, List.pairwise_map]
    refine List.Pairwise.imp_of_mem ?_
      (pairwise_lt_range1 reqs.length (maxCustomerNumber rows + 1))
    intro a b ha hb hab
    rw [List.mem_range'] at ha hb
    obtain ⟨i, hi, ha⟩ := ha
    obtain ⟨j, hj, hb⟩ := hb
    have hka : a < 100000 := by omega
    have hkb : b < 100000 := by omega
    rw [matchCustomerId_generate hka, matchCustomerId_generate hkb]
    simpa using hab
  refine ⟨hlt, ?_, ?_⟩
  · refine hlt.imp ?_
    intro a b hab heq
    rw [heq] at hab
    exact Nat.lt_irrefl _ hab
  · intro hrows hlen
    rw [hids, hrows, hlen]
    decide

def rowZ99999 : CustomerRow :=
  { customerId := ['C', '9', '9', '9', '9', '9']
    companyName := ['Z', 'e', 'd']
    contactPerson := none
    postalCode := none
    address := none
    email := none
    phoneNumber := none
    registeredAt := 0
    updatedAt := 0 }

def reqFoo : CreateCustomerRequest :=
  { companyName := ['F', 'o', 'o']
    contactPerson := none
    postalCode := none
    address := none
    email := none
    phoneNumber := none }

def reqBar : CreateCustomerRequest :=
  { companyName := ['B', 'a', 'r']
    contactPerson := none
    postalCode := none
    address := none
    email := none
    phoneNumber := none }

/-- Counterexample to C5 as stated: on a sheet whose largest id is
C99999, two successful creations both generate C100000 (the six-digit
id no longer matches ^C(\d{5})$, so the scan keeps returning the same
maximum) — the generated ids are neither strictly increasing nor
unique. -/
theorem customer_id_collision_at_overflow :
    createSeqIds 0 [rowZ99999] [reqFoo, reqBar] =
      some [['C', '1', '0', '0', '0', '0', '0'],
            ['C', '1', '0', '0', '0', '0', '0']] ∧
    ¬ (([['C', '1', '0', '0', '0', '0', '0'],
         ['C', '1', '0', '0', '0', '0', '0']] : List Str).Pairwise
        (fun a b => a ≠ b)) := by
  constructor
  · decide
  · decide

def idsFB : List Str :=
  [['C', '0', '0', '0', '0', '1'], ['C', '0', '0', '0', '0', '2']]

def rowFoo : CustomerRow :=
  { customerId := ['C', '0', '0', '0', '0', '1']
    companyName := ['F', 'o', 'o']
    contactPerson := none
    postalCode := none
    address := none
    email := none
    phoneNumber := none
    registeredAt := 0
    updatedAt := 0 }

def rowBar : CustomerRow :=
  { customerId := ['C', '0', '0', '0', '0', '2']
    companyName := ['B', 'a', 'r']
    contactPerson := none
    postalCode := none
    address := none
    email := none
    phoneNumber := none
    registeredAt := 0
    updatedAt := 0 }

/-- Witness for the amended C5: two concrete creations on an empty sheet
produce C00001 then C00002, strictly increasing and distinct. -/
theorem customer_ids_strictly_increasing_witness :
    idsFB.Pairwise
      (fun a b => (matchCustomerId a).getD 0 < (matchCustomerId b).getD 0) ∧
    idsFB.Pairwise (fun a b => a ≠ b) ∧
    (([] : List CustomerRow) = [] → ([reqFoo, reqBar]).length = 2 →
      idsFB = [['C', '0', '0', '0', '0', '1'], ['C', '0', '0', '0', '0', '2']]) :=
  customer_ids_strictly_increasing 0 [reqFoo, reqBar] [] idsFB [rowFoo, rowBar]
    (by decide) (by decide)

end GasInvoice
